import Mathlib

/-!
Shallow embedding of the QWindowKit Win32 window-context message layer
(win32windowcontext.cpp, abstractwindowcontext.cpp) and proofs about it.

OS calls (DefWindowProcW, GetAsyncKeyState, monitor and taskbar queries,
ScreenToClient, ...) are modelled as oracle fields of explicit environment
structures; machine words are Nat with explicit 16-bit packing where the
code packs words; signed results (LRESULT) are Int.
-/

namespace QWK

/-! ## Windows message and constant vocabulary (winuser.h values) -/

def WM_DESTROY : Nat := 0x0002
def WM_CLOSE : Nat := 0x0010
def WM_NCDESTROY : Nat := 0x0082
def WM_NCCALCSIZE : Nat := 0x0083
def WM_NCHITTEST : Nat := 0x0084
-- Undocumented teardown-related messages; numeric values come from the
-- project's Windows compatibility header (not under src/), the claims are
-- insensitive to the exact numbers, only to their membership in the skip list.
def WM_UAHDESTROYWINDOW : Nat := 0x0090
def WM_UNREGISTER_WINDOW_SERVICES : Nat := 0x0092

def WM_NCMOUSEMOVE : Nat := 0x00A0
def WM_NCLBUTTONDOWN : Nat := 0x00A1
def WM_NCLBUTTONUP : Nat := 0x00A2
def WM_NCLBUTTONDBLCLK : Nat := 0x00A3
def WM_NCRBUTTONDOWN : Nat := 0x00A4
def WM_NCRBUTTONUP : Nat := 0x00A5
def WM_NCRBUTTONDBLCLK : Nat := 0x00A6
def WM_NCMBUTTONDOWN : Nat := 0x00A7
def WM_NCMBUTTONUP : Nat := 0x00A8
def WM_NCMBUTTONDBLCLK : Nat := 0x00A9
def WM_NCXBUTTONDOWN : Nat := 0x00AB
def WM_NCXBUTTONUP : Nat := 0x00AC
def WM_NCXBUTTONDBLCLK : Nat := 0x00AD

def WM_MOUSEMOVE : Nat := 0x0200
def WM_LBUTTONDOWN : Nat := 0x0201
def WM_LBUTTONUP : Nat := 0x0202
def WM_LBUTTONDBLCLK : Nat := 0x0203
def WM_RBUTTONDOWN : Nat := 0x0204
def WM_RBUTTONUP : Nat := 0x0205
def WM_RBUTTONDBLCLK : Nat := 0x0206
def WM_MBUTTONDOWN : Nat := 0x0207
def WM_MBUTTONUP : Nat := 0x0208
def WM_MBUTTONDBLCLK : Nat := 0x0209
def WM_XBUTTONDOWN : Nat := 0x020B
def WM_XBUTTONUP : Nat := 0x020C
def WM_XBUTTONDBLCLK : Nat := 0x020D

def WM_NCMOUSEHOVER : Nat := 0x02A0
def WM_MOUSEHOVER : Nat := 0x02A1
def WM_NCMOUSELEAVE : Nat := 0x02A2
def WM_MOUSELEAVE : Nat := 0x02A3

/-- Hit-test codes (signed, since HTERROR is negative). -/
def HTERROR : Int := -2
def HTNOWHERE : Int := 0
def HTCLIENT : Int := 1
def HTCAPTION : Int := 2
def HTSYSMENU : Int := 3
def HTHELP : Int := 21
def HTREDUCE : Int := 8
def HTZOOM : Int := 9
def HTLEFT : Int := 10
def HTRIGHT : Int := 11
def HTTOP : Int := 12
def HTTOPLEFT : Int := 13
def HTTOPRIGHT : Int := 14
def HTBOTTOM : Int := 15
def HTBOTTOMLEFT : Int := 16
def HTBOTTOMRIGHT : Int := 17
def HTBORDER : Int := 18
def HTCLOSE : Int := 20

def WVR_REDRAW : Int := 0x0300

/-- Key-state flags (wParam bits of client mouse messages). -/
def MK_LBUTTON : Nat := 0x0001
def MK_RBUTTON : Nat := 0x0002
def MK_SHIFT : Nat := 0x0004
def MK_CONTROL : Nat := 0x0008
def MK_MBUTTON : Nat := 0x0010
def MK_XBUTTON1 : Nat := 0x0020
def MK_XBUTTON2 : Nat := 0x0040

/-- Virtual-key codes queried by getKeyState. -/
def VK_LBUTTON : Nat := 0x01
def VK_RBUTTON : Nat := 0x02
def VK_MBUTTON : Nat := 0x04
def VK_XBUTTON1 : Nat := 0x05
def VK_XBUTTON2 : Nat := 0x06
def VK_SHIFT : Nat := 0x10
def VK_CONTROL : Nat := 0x11

/-- Taskbar edge identifiers (shellapi.h). -/
def ABE_LEFT : Int := 0
def ABE_TOP : Int := 1
def ABE_RIGHT : Int := 2
def ABE_BOTTOM : Int := 3

/-- `static constexpr const auto kAutoHideTaskBarThickness = quint8 2`. -/
def kAutoHideTaskBarThickness : Int := 2

/-! ## Word packing helpers (windef.h macros, 16-bit halves of a WPARAM/LPARAM) -/

def LOWORD (w : Nat) : Nat := w % 65536

def HIWORD (w : Nat) : Nat := (w / 65536) % 65536

def MAKEWPARAM (l h : Nat) : Nat := LOWORD l + HIWORD (h * 65536) * 65536

/-- `GET_XBUTTON_WPARAM(wParam)` is `HIWORD(wParam)`. -/
def GET_XBUTTON_WPARAM (w : Nat) : Nat := HIWORD w

/-- Sign-extended low 16 bits, `GET_X_LPARAM`. -/
def GET_X_LPARAM (l : Nat) : Int :=
  let v := l % 65536
  if v < 32768 then Int.ofNat v else Int.ofNat v - 65536

/-- Sign-extended high 16 bits, `GET_Y_LPARAM`. -/
def GET_Y_LPARAM (l : Nat) : Int :=
  let v := (l / 65536) % 65536
  if v < 32768 then Int.ofNat v else Int.ofNat v - 65536

/-- Pack two signed coordinates back into an LPARAM (`MAKELPARAM`). -/
def MAKELPARAM (x y : Int) : Nat :=
  (x % 65536).toNat + ((y % 65536).toNat % 65536) * 65536

/-! ## Data model: window parts and the native RECT -/

/-- `Win32WindowContext::WindowPart` from win32windowcontext_p.h. -/
inductive WindowPart where
  | Outside
  | ClientArea
  | ChromeButton
  | ResizeBorder
  | FixedBorder
  | TitleBar
deriving DecidableEq, Repr

/-- `getHitWindowPart` (win32windowcontext.cpp, lines 234-261). -/
def getHitWindowPart (hitTestResult : Int) : WindowPart :=
  if hitTestResult = HTCLIENT then WindowPart.ClientArea
  else if hitTestResult = HTCAPTION then WindowPart.TitleBar
  else if hitTestResult = HTSYSMENU ∨ hitTestResult = HTHELP ∨ hitTestResult = HTREDUCE ∨
          hitTestResult = HTZOOM ∨ hitTestResult = HTCLOSE then WindowPart.ChromeButton
  else if hitTestResult = HTLEFT ∨ hitTestResult = HTRIGHT ∨ hitTestResult = HTTOP ∨
          hitTestResult = HTTOPLEFT ∨ hitTestResult = HTTOPRIGHT ∨ hitTestResult = HTBOTTOM ∨
          hitTestResult = HTBOTTOMLEFT ∨ hitTestResult = HTBOTTOMRIGHT then
    WindowPart.ResizeBorder
  else if hitTestResult = HTBORDER then WindowPart.FixedBorder
  else WindowPart.Outside

/-- Native `RECT` with signed LONG edges. -/
structure Rect where
  left : Int
  top : Int
  right : Int
  bottom : Int
deriving DecidableEq, Repr

/-! ## Non-client frame sizing handler (WM_NCCALCSIZE, customWindowHandler) -/

/--
Environment of OS facts consulted by `customWindowHandler` while processing
`WM_NCCALCSIZE`: OS version predicates, the behavior of `DefWindowProcW` on
this message (both its LRESULT and its rewrite of the client RECT),
maximize/full-screen state, `getResizeBorderThickness`, and the auto-hide
taskbar facts gathered through `SHAppBarMessage` on either OS path.
-/
structure NcEnv where
  isWin10OrGreater : Bool
  isWin8Point1OrGreater : Bool
  /-- LRESULT of `DefWindowProcW(hWnd, WM_NCCALCSIZE, wParam, lParam)`. -/
  defWindowProcResult : Int
  /-- How `DefWindowProcW` rewrites the client rectangle in place. -/
  defWindowProcRect : Rect → Rect
  /-- `IsMaximized(hWnd)`. -/
  isMaximized : Bool
  /-- `isFullScreen(hWnd)`. -/
  isFullScreen : Bool
  /-- `getResizeBorderThickness(hWnd)` (a quint32). -/
  resizeBorderThickness : Nat
  /-- `taskbarState & ABS_AUTOHIDE` from `SHAppBarMessage(ABM_GETSTATE)`. -/
  taskbarAutoHide : Bool
  /-- Win8.1+ per-edge `ABM_GETAUTOHIDEBAREX` answers for the window monitor. -/
  autoHideTop : Bool
  autoHideBottom : Bool
  autoHideLeft : Bool
  autoHideRight : Bool
  /-- Legacy path: `abd2.uEdge` when the taskbar monitor equals the window
      monitor, `-1` otherwise (the initial value of `edge`). -/
  legacyTaskbarEdge : Int

/--
Step 1 of the WM_NCCALCSIZE algorithm on the fall-through path (lines
865-889): on Windows 10+ let `DefWindowProcW` apply the default frame, then
restore the original top edge; on older systems leave the rect untouched.
-/
def ncRectAfterDefault (env : NcEnv) (r0 : Rect) : Rect :=
  if env.isWin10OrGreater then
    let originalTop := r0.top
    let rDef := env.defWindowProcRect r0
    { rDef with top := originalTop }
  else r0

/--
The maximize compensation block (lines 902-908): `clientRect->top += frameSize`
always, and on pre-Windows-10 systems also shrink bottom, left and right.
-/
def applyMaximizeCompensation (isWin10 : Bool) (frameSize : Nat) (r : Rect) : Rect :=
  let r1 := { r with top := r.top + (frameSize : Int) }
  if isWin10 then r1
  else { r1 with
          bottom := r1.bottom - (frameSize : Int),
          left := r1.left + (frameSize : Int),
          right := r1.right - (frameSize : Int) }

/-- Step 2 guard (lines 890-909): applied only when maximized and not full-screen. -/
def ncRectAfterMaximize (env : NcEnv) (r0 : Rect) : Rect :=
  let r := ncRectAfterDefault env r0
  if env.isMaximized && !env.isFullScreen then
    applyMaximizeCompensation env.isWin10OrGreater env.resizeBorderThickness r
  else r

/--
Which monitor edges are reported as carrying an auto-hide taskbar
(lines 927-960): per-edge `ABM_GETAUTOHIDEBAREX` on Windows 8.1+, otherwise
the single legacy edge compared against the four ABE constants.
Order of the tuple: (top, bottom, left, right).
-/
def computeAutoHideEdges (env : NcEnv) : Bool × Bool × Bool × Bool :=
  if env.isWin8Point1OrGreater then
    (env.autoHideTop, env.autoHideBottom, env.autoHideLeft, env.autoHideRight)
  else
    (decide (env.legacyTaskbarEdge = ABE_TOP), decide (env.legacyTaskbarEdge = ABE_BOTTOM),
     decide (env.legacyTaskbarEdge = ABE_LEFT), decide (env.legacyTaskbarEdge = ABE_RIGHT))

/--
The edge shrink chain (lines 971-980): an if / else-if cascade over
top, bottom, left, right, each moving the corresponding edge inward by
`kAutoHideTaskBarThickness`.
-/
def applyAutoHideTaskbarAdjustment (top bottom left right : Bool) (r : Rect) : Rect :=
  if top then { r with top := r.top + kAutoHideTaskBarThickness }
  else if bottom then { r with bottom := r.bottom - kAutoHideTaskBarThickness }
  else if left then { r with left := r.left + kAutoHideTaskBarThickness }
  else if right then { r with right := r.right - kAutoHideTaskBarThickness }
  else r

/-- Step 3 guard (lines 916-982): maximized or full-screen, and the taskbar
    auto-hide state bit set. -/
def ncRectFinal (env : NcEnv) (r0 : Rect) : Rect :=
  let r := ncRectAfterMaximize env r0
  if (env.isMaximized || env.isFullScreen) && env.taskbarAutoHide then
    let edges := computeAutoHideEdges env
    applyAutoHideTaskbarAdjustment edges.1 edges.2.1 edges.2.2.1 edges.2.2.2 r
  else r

/--
The early-return guard at lines 876-880: on Windows 10+, if the LRESULT of
the default procedure is neither HTERROR nor HTNOWHERE, that value is stored
into `*result` and the handler returns immediately.
-/
def ncEarlyReturn (env : NcEnv) : Bool :=
  env.isWin10OrGreater &&
    !(decide (env.defWindowProcResult = HTERROR)) &&
    !(decide (env.defWindowProcResult = HTNOWHERE))

/--
`Win32WindowContext::customWindowHandler` (lines 774-1000). Only
`WM_NCCALCSIZE` is handled; every other message falls through untouched.
Output: (handled, LRESULT, client rectangle). `wParam = 0` is the
simple-RECT form (`FALSE`); nonzero is the `NCCALCSIZE_PARAMS` form, whose
`rgrc[0]` plays the same role as the plain RECT.
-/
def customWindowHandler (env : NcEnv) (message wParam : Nat) (rect : Rect)
    (resultIn : Int) : Bool × Int × Rect :=
  if message = WM_NCCALCSIZE then
    if ncEarlyReturn env then
      (true, env.defWindowProcResult, env.defWindowProcRect rect)
    else
      (true, if wParam = 0 then (0 : Int) else WVR_REDRAW, ncRectFinal env rect)
  else
    (false, resultIn, rect)

/-! ## Key state and client-message emulation (emulateClientAreaMessage) -/

/-- `static constexpr const auto kMessageTag = WPARAM(0x97CCEA99)` (line 496). -/
def kMessageTag : Nat := 0x97CCEA99

/-- `isTaggedMessage(wParam)` (lines 498-500). -/
def isTaggedMessage (wParam : Nat) : Bool := wParam = kMessageTag

/--
Oracle inputs of `getKeyState` (lines 502-530): which virtual keys
`GetAsyncKeyState` reports pressed, and `GetSystemMetrics(SM_SWAPBUTTON)`.
-/
structure KeyEnv where
  keyDown : Nat → Bool
  buttonSwapped : Bool

/-- `getKeyState()` (lines 502-530): rebuild the MK_ word from live key state. -/
def getKeyState (env : KeyEnv) : Nat :=
  let r1 := if env.keyDown VK_LBUTTON then
              (if env.buttonSwapped then MK_RBUTTON else MK_LBUTTON) else 0
  let r2 := r1 + (if env.keyDown VK_RBUTTON then
              (if env.buttonSwapped then MK_LBUTTON else MK_RBUTTON) else 0)
  let r3 := r2 + (if env.keyDown VK_SHIFT then MK_SHIFT else 0)
  let r4 := r3 + (if env.keyDown VK_CONTROL then MK_CONTROL else 0)
  let r5 := r4 + (if env.keyDown VK_MBUTTON then MK_MBUTTON else 0)
  let r6 := r5 + (if env.keyDown VK_XBUTTON1 then MK_XBUTTON1 else 0)
  r6 + (if env.keyDown VK_XBUTTON2 then MK_XBUTTON2 else 0)

/-- The non-client extended-button message range test used twice in the code:
    `(myMsg >= WM_NCXBUTTONDOWN) && (myMsg <= WM_NCXBUTTONDBLCLK)`. -/
def isNcXButtonMessage (m : Nat) : Bool := WM_NCXBUTTONDOWN ≤ m && m ≤ WM_NCXBUTTONDBLCLK

/--
The `wParamNew` lambda of `emulateClientAreaMessage` (lines 535-548): the
sentinel tag for the emulated leave, `MAKEWPARAM(keyState, xButtonMask)` for
the extended-button kinds, and the bare live key state otherwise.
-/
def wParamNew (env : KeyEnv) (myMsg wParam : Nat) : Nat :=
  if myMsg = WM_NCMOUSELEAVE then kMessageTag
  else
    let keyState := getKeyState env
    if isNcXButtonMessage myMsg then MAKEWPARAM keyState (GET_XBUTTON_WPARAM wParam)
    else keyState

/-- Screen-to-client translation oracle for `ScreenToClient(hWnd, ...)`. -/
structure PosEnv where
  screenToClient : Int × Int → Int × Int

/--
The `lParamNew` lambda of `emulateClientAreaMessage` (lines 549-558): zero
for the emulated leave, otherwise the screen position translated to client
coordinates and repacked.
-/
def lParamNew (env : PosEnv) (myMsg lParam : Nat) : Nat :=
  if myMsg = WM_NCMOUSELEAVE then 0
  else
    let screenPos := (GET_X_LPARAM lParam, GET_Y_LPARAM lParam)
    let clientPos := env.screenToClient screenPos
    MAKELPARAM clientPos.1 clientPos.2

/--
The dispatch switch of `emulateClientAreaMessage` (lines 564-619): which
client-area message kind is posted for each non-client kind; `none` for
kinds outside the switch (nothing is posted).
-/
def clientMessageFor (myMsg : Nat) : Option Nat :=
  if myMsg = WM_NCHITTEST then some WM_MOUSEMOVE
  else if myMsg = WM_NCMOUSEMOVE then some WM_MOUSEMOVE
  else if myMsg = WM_NCLBUTTONDOWN then some WM_LBUTTONDOWN
  else if myMsg = WM_NCLBUTTONUP then some WM_LBUTTONUP
  else if myMsg = WM_NCLBUTTONDBLCLK then some WM_LBUTTONDBLCLK
  else if myMsg = WM_NCRBUTTONDOWN then some WM_RBUTTONDOWN
  else if myMsg = WM_NCRBUTTONUP then some WM_RBUTTONUP
  else if myMsg = WM_NCRBUTTONDBLCLK then some WM_RBUTTONDBLCLK
  else if myMsg = WM_NCMBUTTONDOWN then some WM_MBUTTONDOWN
  else if myMsg = WM_NCMBUTTONUP then some WM_MBUTTONUP
  else if myMsg = WM_NCMBUTTONDBLCLK then some WM_MBUTTONDBLCLK
  else if myMsg = WM_NCXBUTTONDOWN then some WM_XBUTTONDOWN
  else if myMsg = WM_NCXBUTTONUP then some WM_XBUTTONUP
  else if myMsg = WM_NCXBUTTONDBLCLK then some WM_XBUTTONDBLCLK
  else if myMsg = WM_NCMOUSEHOVER then some WM_MOUSEHOVER
  else if myMsg = WM_NCMOUSELEAVE then some WM_MOUSELEAVE
  else none

/--
`emulateClientAreaMessage` (lines 532-622): compute the replacement
message, wParam and lParam, and post it (modelled as returning the posted
triple, `none` when the kind is outside the dispatch switch).
-/
def emulateClientAreaMessage (kenv : KeyEnv) (penv : PosEnv)
    (message wParam lParam : Nat) (overrideMessage : Option Nat) :
    Option (Nat × Nat × Nat) :=
  let myMsg := overrideMessage.getD message
  match clientMessageFor myMsg with
  | some clientMsg => some (clientMsg, wParamNew kenv myMsg wParam, lParamNew penv myMsg lParam)
  | none => none

/-! ## Per-window mutable state and the snap-layout handler -/

/-- The mutable per-window fields of `Win32WindowContext` that the message
    handlers read and write (win32windowcontext_p.h, lines 66-71). -/
structure WinCtx where
  lastHitTestResult : WindowPart
  mouseLeaveBlocked : Bool
deriving DecidableEq, Repr

/--
Oracles consulted by `snapLayoutHandler`: key state and position translation
for the emulation, the scene-point-over-a-system-button test fed by
`GetMessagePos` + `fromNativeLocalPosition` + `isInSystemButtons`
(lines 649-654), and the LRESULT of the dangerous
`DefWindowProcW(hWnd, WM_NCMOUSEMOVE, ...)` call (line 723).
-/
structure SnapEnv where
  keyEnv : KeyEnv
  posEnv : PosEnv
  overSystemButtonAtMessagePos : Bool
  defNcMouseMoveResult : Int

/--
Observable outcome of one message through the context handlers: the claimed
handled flag and LRESULT, the updated per-window state, the (unchanged or
renegotiated) client rectangle, the client-area messages posted back via
`PostMessageW`, the `TrackMouseEvent` requests issued (their nonClient
flag), and how many times `m_delegate->resetQtGrabbedControl()` ran.
-/
structure ProcOut where
  handled : Bool
  result : Int
  ctx : WinCtx
  rect : Rect
  posted : List (Nat × Nat × Nat)
  trackRequests : List Bool
  grabResets : Nat
deriving Repr

/-- An unhandled pass-through outcome. -/
def passThrough (ctx : WinCtx) (rect : Rect) (resultIn : Int) : ProcOut :=
  { handled := false, result := resultIn, ctx := ctx, rect := rect,
    posted := [], trackRequests := [], grabResets := 0 }

/-- The explicit non-client case-label list of `snapLayoutHandler`
    (lines 678-696): mouse move, the nine button messages, the three
    extended-button messages and hover. -/
def isSnapNcInputMessage (m : Nat) : Bool :=
  m = WM_NCMOUSEMOVE || m = WM_NCLBUTTONDOWN || m = WM_NCLBUTTONUP ||
  m = WM_NCLBUTTONDBLCLK || m = WM_NCRBUTTONDOWN || m = WM_NCRBUTTONUP ||
  m = WM_NCRBUTTONDBLCLK || m = WM_NCMBUTTONDOWN || m = WM_NCMBUTTONUP ||
  m = WM_NCMBUTTONDBLCLK || m = WM_NCXBUTTONDOWN || m = WM_NCXBUTTONUP ||
  m = WM_NCXBUTTONDBLCLK || m = WM_NCMOUSEHOVER

/-- Turn an optional posted message into the list of messages it contributes. -/
def optPosted (p : Option (Nat × Nat × Nat)) : List (Nat × Nat × Nat) :=
  match p with
  | some m => [m]
  | none => []

/--
`Win32WindowContext::snapLayoutHandler` (lines 636-772), the snap-layout /
client-event emulation state machine, as a pure transition function.
-/
def snapLayoutHandler (env : SnapEnv) (ctx : WinCtx) (message wParam lParam : Nat)
    (rect : Rect) (resultIn : Int) : ProcOut :=
  if message = WM_MOUSELEAVE then
    if !isTaggedMessage wParam && env.overSystemButtonAtMessagePos then
      -- Suppress the spurious client leave over a system button: record the
      -- block, report handled with a FALSE result.
      { handled := true, result := 0, ctx := { ctx with mouseLeaveBlocked := true },
        rect := rect, posted := [], trackRequests := [], grabResets := 0 }
    else
      { passThrough { ctx with mouseLeaveBlocked := false } rect resultIn with
        posted := [] }
  else if message = WM_MOUSEMOVE then
    if ctx.lastHitTestResult ≠ WindowPart.ChromeButton && ctx.mouseLeaveBlocked then
      { passThrough { ctx with mouseLeaveBlocked := false } rect resultIn with
        trackRequests := [false] }
    else
      passThrough ctx rect resultIn
  else if isSnapNcInputMessage message then
    let currentWindowPart := ctx.lastHitTestResult
    -- WM_NCMOUSEMOVE pre-processing (lines 698-714).
    let preGrabResets :=
      if message = WM_NCMOUSEMOVE && currentWindowPart ≠ WindowPart.ChromeButton
      then 1 else 0
    let prePosted :=
      if message = WM_NCMOUSEMOVE && currentWindowPart ≠ WindowPart.ChromeButton &&
         ctx.mouseLeaveBlocked then
        optPosted (emulateClientAreaMessage env.keyEnv env.posEnv message wParam lParam
          (some WM_NCMOUSELEAVE))
      else []
    let ctx1 :=
      if message = WM_NCMOUSEMOVE then { ctx with lastHitTestResult := WindowPart.Outside }
      else ctx
    if currentWindowPart = WindowPart.ChromeButton then
      let posted2 := prePosted ++
        optPosted (emulateClientAreaMessage env.keyEnv env.posEnv message wParam lParam none)
      let res : Int :=
        if message = WM_NCMOUSEMOVE then env.defNcMouseMoveResult
        else if isNcXButtonMessage message then 1 else 0
      { handled := true, result := res, ctx := ctx1, rect := rect,
        posted := posted2, trackRequests := [], grabResets := preGrabResets }
    else
      { handled := false, result := resultIn, ctx := ctx1, rect := rect,
        posted := prePosted, trackRequests := [], grabResets := preGrabResets }
  else if message = WM_NCMOUSELEAVE then
    let currentWindowPart := ctx.lastHitTestResult
    if currentWindowPart = WindowPart.ChromeButton then
      if ctx.mouseLeaveBlocked then
        { passThrough { ctx with mouseLeaveBlocked := false } rect resultIn with
          trackRequests := [false] }
      else
        passThrough ctx rect resultIn
    else
      let posted :=
        if ctx.mouseLeaveBlocked then
          optPosted (emulateClientAreaMessage env.keyEnv env.posEnv message wParam lParam
            (some WM_NCMOUSELEAVE))
        else []
      let grabs := if currentWindowPart = WindowPart.Outside then 1 else 0
      { handled := false, result := resultIn, ctx := ctx, rect := rect,
        posted := posted, trackRequests := [], grabResets := grabs }
  else
    passThrough ctx rect resultIn

/-! ## The context window procedure (Win32WindowContext::windowProc) -/

/-- The teardown skip list at the top of `windowProc` (lines 467-477). -/
def isTeardownMessage (m : Nat) : Bool :=
  m = WM_CLOSE || m = WM_DESTROY || m = WM_NCDESTROY ||
  m = WM_UAHDESTROYWINDOW || m = WM_UNREGISTER_WINDOW_SERVICES

/-- All oracles the full `windowProc` pipeline consults, including the
    `isValidWindow(windowId, false, true)` guard (line 479). -/
structure ProcEnv where
  snap : SnapEnv
  nc : NcEnv
  validWindow : Bool

/--
`Win32WindowContext::windowProc` (lines 461-494): zero the result slot,
skip teardown messages, check window validity, then try
`snapLayoutHandler` and `customWindowHandler` in that order.
-/
def windowProc (env : ProcEnv) (ctx : WinCtx) (message wParam lParam : Nat)
    (rect : Rect) (resultIn : Int) : ProcOut :=
  -- `*result = FALSE;` — the incoming result slot value `resultIn` is
  -- overwritten before anything else happens.
  let result0 : Int := 0
  if isTeardownMessage message then
    passThrough ctx rect result0
  else if !env.validWindow then
    passThrough ctx rect result0
  else
    let s := snapLayoutHandler env.snap ctx message wParam lParam rect result0
    if s.handled then s
    else
      let c := customWindowHandler env.nc message wParam s.rect s.result
      { s with handled := c.1, result := c.2.1, rect := c.2.2 }

/-- Fold a message sequence through `windowProc`, accumulating the posted
    client messages, track requests and grab resets of every step. -/
def processMessages (env : ProcEnv) (ctx : WinCtx)
    (msgs : List (Nat × Nat × Nat)) (rect : Rect) : ProcOut :=
  match msgs with
  | [] => passThrough ctx rect 0
  | (m, w, l) :: rest =>
      let out := windowProc env ctx m w l rect 0
      let tail := processMessages env out.ctx rest out.rect
      { tail with
        posted := out.posted ++ tail.posted,
        trackRequests := out.trackRequests ++ tail.trackRequests,
        grabResets := out.grabResets + tail.grabResets }

/-! ## Hooked window procedure and the process-wide hook registry -/

/-- Association-list update with QHash `insert` semantics: at most one entry
    per key, inserting an existing key replaces its value. -/
def hashInsert (l : List (Nat × Nat)) (k v : Nat) : List (Nat × Nat) :=
  (k, v) :: l.filter (fun p => p.1 ≠ k)

/-- QHash `remove`: drop the entry of a key. -/
def hashRemove (l : List (Nat × Nat)) (k : Nat) : List (Nat × Nat) :=
  l.filter (fun p => p.1 ≠ k)

/-- QHash `value`: look a key up. -/
def hashValue (l : List (Nat × Nat)) (k : Nat) : Option Nat :=
  (l.find? (fun p => p.1 = k)).map (fun p => p.2)

/--
Process-wide mutable state of win32windowcontext.cpp: `g_wndProcHash`
(handle to context identity), `g_qtWindowProc` (captured once), the
`WindowsNativeEventFilter` singleton presence, and each window's currently
installed WNDPROC (`GetWindowLongPtrW` / `SetWindowLongPtrW` slot),
kept as an association list handle to procedure identity.
-/
structure HookGlobals where
  wndProcHash : List (Nat × Nat)
  qtWindowProc : Option Nat
  filterInstalled : Bool
  wndProcSlot : List (Nat × Nat)
deriving DecidableEq, Repr

/--
`WindowsNativeEventFilter::uninstall()` (lines 328-332): remove the filter
instance from the application and null the singleton. When the singleton is
already null, removing a null filter from Qt's list is a no-op and deleting
a null pointer is a no-op, so the state is simply filter-absent.
-/
def filterUninstall (g : HookGlobals) : HookGlobals :=
  { g with filterInstalled := false }

/-- `WindowsNativeEventFilter::install()` (lines 323-326). -/
def filterInstall (g : HookGlobals) : HookGlobals :=
  { g with filterInstalled := true }

/--
`Win32WindowContext::setup()` (lines 433-459) for a window whose
`winId()` is `hWnd`, registering context identity `ctxId`. The procedure
identity `hookedProc` stands for `QWKHookedWndProc`.
-/
def setup (hookedProc : Nat) (g : HookGlobals) (hWnd ctxId : Nat) : HookGlobals :=
  -- Store original window proc (only if not stored yet).
  let g1 :=
    if g.qtWindowProc.isNone then
      { g with qtWindowProc := some ((hashValue g.wndProcSlot hWnd).getD 0) }
    else g
  -- Hook window proc.
  let g2 := { g1 with wndProcSlot := hashInsert g1.wndProcSlot hWnd hookedProc }
  -- Install global native event filter (only if no instance yet).
  let g3 := if !g2.filterInstalled then filterInstall g2 else g2
  -- Save window handle mapping.
  { g3 with wndProcHash := hashInsert g3.wndProcHash hWnd ctxId }

/--
The body of `Win32WindowContext::~Win32WindowContext()` (lines 421-431):
remove the handle mapping and, if no window remains mapped, uninstall the
global filter. `windowId` is the cached handle of the dying context.
-/
def teardown (g : HookGlobals) (windowId : Nat) : HookGlobals :=
  if windowId ≠ 0 then
    let g1 := { g with wndProcHash := hashRemove g.wndProcHash windowId }
    if g1.wndProcHash.isEmpty then filterUninstall g1 else g1
  else g

/-- Which procedure an incoming message was forwarded to by the hooked
    window procedure. -/
inductive ForwardTarget where
  | defaultProc
  | originalProc
  | noForward
deriving DecidableEq, Repr

/-- Registry mapping handles to full per-window context state, for running
    the hooked procedure. -/
def RegistryState := List (Nat × WinCtx)

/-- `g_wndProcHash->value(hWnd)` over the stateful registry. -/
def lookupCtx (reg : List (Nat × WinCtx)) (h : Nat) : Option WinCtx :=
  (reg.find? (fun p => p.1 = h)).map (fun p => p.2)

/-- Write a context's updated state back through its handle. -/
def storeCtx (reg : List (Nat × WinCtx)) (h : Nat) (c : WinCtx) :
    List (Nat × WinCtx) :=
  reg.map (fun p => if p.1 = h then (p.1, c) else p)

/-- Oracles of `QWKHookedWndProc`: everything `windowProc` consults, plus
    the LRESULTs of `DefWindowProcW` (the no-context path) and of
    `CallWindowProcW(g_qtWindowProc, ...)` (the unconditional forward). -/
structure HookEnv where
  procEnv : ProcEnv
  defWindowProcReturn : Int
  callWindowProcReturn : Int

/-- Mutable data touched by one pass of the hooked procedure: the registry
    and the two `WindowsNativeEventFilter` statics (lines 335-336). -/
structure HookState where
  registry : List (Nat × WinCtx)
  lastMessageHandled : Bool
  lastMessageResult : Int
deriving Repr

/-- Outcome of one `QWKHookedWndProc` pass. -/
structure HookOut where
  state : HookState
  returnValue : Int
  forwarded : ForwardTarget
  handlerInvoked : Bool
deriving Repr

/--
`QWKHookedWndProc` (lines 391-415): bail out on a null handle, forward to
`DefWindowProcW` when the handle has no registered context, otherwise run
the context's `windowProc`, store its handled flag and result into the
native-event-filter statics, and unconditionally forward to the original
Qt window procedure.
-/
def QWKHookedWndProc (env : HookEnv) (st : HookState)
    (hWnd message wParam lParam : Nat) (rect : Rect) : HookOut :=
  if hWnd = 0 then
    { state := st, returnValue := 0, forwarded := ForwardTarget.noForward,
      handlerInvoked := false }
  else
    match lookupCtx st.registry hWnd with
    | none =>
        { state := st, returnValue := env.defWindowProcReturn,
          forwarded := ForwardTarget.defaultProc, handlerInvoked := false }
    | some ctx =>
        let out := windowProc env.procEnv ctx message wParam lParam rect
          st.lastMessageResult
        { state := { registry := storeCtx st.registry hWnd out.ctx,
                     lastMessageHandled := out.handled,
                     lastMessageResult := out.result },
          returnValue := env.callWindowProcReturn,
          forwarded := ForwardTarget.originalProc, handlerInvoked := true }

/-! ## AbstractWindowContext registration operations -/

/-- `CoreWindowAgent::SystemButton` roles as indexed by `m_systemButtons`. -/
inductive SystemButton where
  | Unknown
  | WindowIcon
  | Help
  | Minimize
  | Maximize
  | Close
deriving DecidableEq, Repr

/-- The registration-related fields of `AbstractWindowContext`: the
    role-to-object map and the title bar object, pointers as Nat with 0
    for null. -/
structure AgentState where
  systemButtons : SystemButton → Nat
  titleBar : Nat

/-- `AbstractWindowContext::setSystemButton` (abstractwindowcontext.cpp,
    lines 41-54). -/
def setSystemButton (s : AgentState) (button : SystemButton) (obj : Nat) :
    Bool × AgentState :=
  if obj = 0 ∨ button = SystemButton.Unknown then (false, s)
  else if s.systemButtons button = obj then (false, s)
  else (true, { s with systemButtons :=
    fun b => if b = button then obj else s.systemButtons b })

/-- `AbstractWindowContext::setTitleBar` (abstractwindowcontext.cpp,
    lines 56-67). -/
def setTitleBar (s : AgentState) (item : Nat) : Bool × AgentState :=
  if item = 0 then (false, s)
  else if s.titleBar = item then (false, s)
  else (true, { s with titleBar := item })

/-! ## Derived observation helpers and concrete evaluation environments -/

/-- Number of synthesized client-area mouse-leave messages in a posted list. -/
def countSynthesizedLeaves (l : List (Nat × Nat × Nat)) : Nat :=
  (l.filter (fun t => t.1 = WM_MOUSELEAVE)).length

/-- A key environment with no key pressed and unswapped buttons. -/
def kenvA : KeyEnv := { keyDown := fun _ => false, buttonSwapped := false }

/-- Identity screen-to-client translation (window client origin at 0,0). -/
def penvA : PosEnv := { screenToClient := fun p => p }

/-- A baseline snap-handler environment. -/
def snapA : SnapEnv :=
  { keyEnv := kenvA, posEnv := penvA, overSystemButtonAtMessagePos := false,
    defNcMouseMoveResult := 7 }

/-- A baseline WM_NCCALCSIZE environment: Windows 10, default procedure
    returning 0 (HTNOWHERE) and leaving the rect alone, restored window,
    8-pixel resize border, no auto-hide taskbar. -/
def ncA : NcEnv :=
  { isWin10OrGreater := true, isWin8Point1OrGreater := true,
    defWindowProcResult := 0, defWindowProcRect := id,
    isMaximized := false, isFullScreen := false, resizeBorderThickness := 8,
    taskbarAutoHide := false, autoHideTop := false, autoHideBottom := false,
    autoHideLeft := false, autoHideRight := false, legacyTaskbarEdge := -1 }

/-- The environment of the C1 counterexample: the default procedure answers
    an LRESULT that is neither HTERROR nor HTNOWHERE. -/
def ncC1x : NcEnv := { ncA with defWindowProcResult := 1024 }

/-- Maximized, not full-screen variant of the baseline. -/
def ncMaxA : NcEnv := { ncA with isMaximized := true }

/-- Maximized with an auto-hide taskbar detected on the bottom edge. -/
def ncTbA : NcEnv := { ncMaxA with taskbarAutoHide := true, autoHideBottom := true }

/-- The baseline full pipeline environment with a valid window. -/
def envA : ProcEnv := { snap := snapA, nc := ncA, validWindow := true }

/-- A 100 by 100 proposed window rectangle. -/
def rectA : Rect := { left := 0, top := 0, right := 100, bottom := 100 }

/-- Idle per-window state. -/
def ctxA : WinCtx := { lastHitTestResult := WindowPart.Outside, mouseLeaveBlocked := false }

/-- Per-window state with a pending suppressed leave, cursor not over chrome. -/
def ctxB : WinCtx := { lastHitTestResult := WindowPart.Outside, mouseLeaveBlocked := true }

/-- Hook environment for exercising `QWKHookedWndProc`. -/
def envH : HookEnv := { procEnv := envA, defWindowProcReturn := 11, callWindowProcReturn := 22 }

/-- Hook state with one registered window (handle 5). -/
def stH : HookState := { registry := [(5, ctxA)], lastMessageHandled := false, lastMessageResult := 0 }

/-- Agent registration state: every role already bound to object 5, the
    title bar to object 7. -/
def agentA : AgentState := { systemButtons := fun _ => 5, titleBar := 7 }

/-! ## Claim theorems -/

/--
Claim C1, counterexample. The claim states that whenever the handler reports
WM_NCCALCSIZE handled, the result is 0 for the simple-RECT form (wParam
FALSE) and WVR_REDRAW for the rich form, never any other value, on every
execution path. On the Windows 10+ path with the default procedure
answering 1024 (neither HTERROR nor HTNOWHERE) and wParam FALSE, the
handler reports handled with result 1024, not 0.
-/
theorem C1_counterexample :
    (customWindowHandler ncC1x WM_NCCALCSIZE 0 rectA 0).1 = true ∧
    (customWindowHandler ncC1x WM_NCCALCSIZE 0 rectA 0).2.1 ≠ 0 ∧
    (customWindowHandler ncC1x WM_NCCALCSIZE 0 rectA 0).2.1 ≠ WVR_REDRAW := by
  refine ⟨by decide, by decide, by decide⟩

/--
Claim C1, amended. For every WM_NCCALCSIZE message the handler reports
handled. When the early-return guard does not fire (pre-Windows-10, or the
default procedure answered HTERROR or HTNOWHERE) the result is 0 for wParam
FALSE and WVR_REDRAW for wParam TRUE; when it fires, the result is the
default procedure's LRESULT propagated verbatim.
-/
theorem C1_result_codes (env : NcEnv) (wParam : Nat) (rect : Rect) (resultIn : Int) :
    (customWindowHandler env WM_NCCALCSIZE wParam rect resultIn).1 = true ∧
    (ncEarlyReturn env = false →
      (customWindowHandler env WM_NCCALCSIZE wParam rect resultIn).2.1 =
        if wParam = 0 then (0 : Int) else WVR_REDRAW) ∧
    (ncEarlyReturn env = true →
      (customWindowHandler env WM_NCCALCSIZE wParam rect resultIn).2.1 =
        env.defWindowProcResult) := by
  refine ⟨?_, ?_, ?_⟩
  · simp [customWindowHandler]
    split <;> simp
  · intro h
    simp [customWindowHandler, h]
  · intro h
    simp [customWindowHandler, h]

/-- Claim C1 witness: on the baseline environment the guard does not fire
    and the two documented results are produced. -/
theorem C1_witness :
    (customWindowHandler ncA WM_NCCALCSIZE 0 rectA 0).2.1 = 0 ∧
    (customWindowHandler ncA WM_NCCALCSIZE 1 rectA 0).2.1 = WVR_REDRAW := by
  have h0 := (C1_result_codes ncA 0 rectA 0).2.1 (by decide)
  have h1 := (C1_result_codes ncA 1 rectA 0).2.1 (by decide)
  simpa using And.intro h0 h1

/--
Claim C2: when the window is maximized and not full-screen, the maximize
compensation step moves the client rectangle's top edge inward by exactly
the resize-border thickness; on Windows 10+ it leaves left, right and
bottom unchanged, while on older systems it shrinks all four edges by the
same thickness.
-/
theorem C2_maximize_compensation (env : NcEnv) (r0 : Rect)
    (hmax : env.isMaximized = true) (hfull : env.isFullScreen = false) :
    (ncRectAfterMaximize env r0).top =
      (ncRectAfterDefault env r0).top + (env.resizeBorderThickness : Int) ∧
    (env.isWin10OrGreater = true →
      (ncRectAfterMaximize env r0).left = (ncRectAfterDefault env r0).left ∧
      (ncRectAfterMaximize env r0).right = (ncRectAfterDefault env r0).right ∧
      (ncRectAfterMaximize env r0).bottom = (ncRectAfterDefault env r0).bottom) ∧
    (env.isWin10OrGreater = false →
      (ncRectAfterMaximize env r0).left =
        (ncRectAfterDefault env r0).left + (env.resizeBorderThickness : Int) ∧
      (ncRectAfterMaximize env r0).right =
        (ncRectAfterDefault env r0).right - (env.resizeBorderThickness : Int) ∧
      (ncRectAfterMaximize env r0).bottom =
        (ncRectAfterDefault env r0).bottom - (env.resizeBorderThickness : Int)) := by
  cases h10 : env.isWin10OrGreater <;>
    simp [ncRectAfterMaximize, applyMaximizeCompensation, hmax, hfull, h10]

/-- Claim C2 witness: maximized 100 by 100 window at the baseline
    environment, top raised by the 8-pixel border, other edges untouched. -/
theorem C2_witness :
    (ncRectAfterMaximize ncMaxA rectA).top =
      (ncRectAfterDefault ncMaxA rectA).top + (ncMaxA.resizeBorderThickness : Int) ∧
    (ncRectAfterMaximize ncMaxA rectA).left = (ncRectAfterDefault ncMaxA rectA).left ∧
    (ncRectAfterMaximize ncMaxA rectA).right = (ncRectAfterDefault ncMaxA rectA).right ∧
    (ncRectAfterMaximize ncMaxA rectA).bottom = (ncRectAfterDefault ncMaxA rectA).bottom :=
  ⟨(C2_maximize_compensation ncMaxA rectA rfl rfl).1,
   (C2_maximize_compensation ncMaxA rectA rfl rfl).2.1 rfl⟩

/--
Claim C5, counterexample. The claim states that for teardown messages the
handler leaves the message's result exactly as received. Processing WM_CLOSE
with a received result slot value of 1 produces result 0: the handler's
unconditional initialization overwrites the received value.
-/
theorem C5_counterexample :
    (windowProc envA ctxA WM_CLOSE 0 0 rectA 1).handled = false ∧
    (windowProc envA ctxA WM_CLOSE 0 0 rectA 1).result ≠ 1 := by
  refine ⟨by decide, by decide⟩

/--
Claim C5, amended. Teardown messages (close, destroy, non-client destroy
and the undocumented destroy-related variants) are reported not handled and
leave the per-window state, the rectangle, and all side effects untouched;
the result slot holds 0, the handler's unconditional initialization value
(not the received value, which is overwritten; since the message is
reported unhandled the slot is never consumed).
-/
theorem C5_teardown_passthrough (env : ProcEnv) (ctx : WinCtx)
    (m w l : Nat) (rect : Rect) (resultIn : Int)
    (h : isTeardownMessage m = true) :
    (windowProc env ctx m w l rect resultIn).handled = false ∧
    (windowProc env ctx m w l rect resultIn).ctx = ctx ∧
    (windowProc env ctx m w l rect resultIn).rect = rect ∧
    (windowProc env ctx m w l rect resultIn).posted = [] ∧
    (windowProc env ctx m w l rect resultIn).trackRequests = [] ∧
    (windowProc env ctx m w l rect resultIn).grabResets = 0 ∧
    (windowProc env ctx m w l rect resultIn).result = 0 := by
  simp [windowProc, h, passThrough]

/-- Claim C5 witness: WM_NCDESTROY on the baseline environment passes
    through with untouched state. -/
theorem C5_witness :
    (windowProc envA ctxB WM_NCDESTROY 0 0 rectA 3).handled = false ∧
    (windowProc envA ctxB WM_NCDESTROY 0 0 rectA 3).ctx = ctxB ∧
    (windowProc envA ctxB WM_NCDESTROY 0 0 rectA 3).result = 0 := by
  have h := C5_teardown_passthrough envA ctxB WM_NCDESTROY 0 0 rectA 3 (by decide)
  exact ⟨h.1, h.2.1, h.2.2.2.2.2.2⟩

/--
Claim C10: registering the object already assigned to a system-button role
(valid object, valid role), or the object already assigned as the title
bar, returns false and leaves the state unchanged, indistinguishable from
the invalid-input rejection.
-/
theorem C10_duplicate_registration_rejected (s : AgentState)
    (button : SystemButton) (obj item : Nat)
    (hobj : obj ≠ 0) (hbtn : button ≠ SystemButton.Unknown)
    (hdup : s.systemButtons button = obj)
    (hitem : item ≠ 0) (hdupTitle : s.titleBar = item) :
    setSystemButton s button obj = (false, s) ∧ setTitleBar s item = (false, s) := by
  constructor
  · simp [setSystemButton, hobj, hbtn, hdup]
  · simp [setTitleBar, hitem, hdupTitle]

/-- Claim C10 witness: role Close already bound to object 5 and title bar
    already bound to object 7 are both rejected without mutation. -/
theorem C10_witness :
    setSystemButton agentA SystemButton.Close 5 = (false, agentA) ∧
    setTitleBar agentA 7 = (false, agentA) :=
  C10_duplicate_registration_rejected agentA SystemButton.Close 5 7
    (by decide) (by decide) rfl (by decide) rfl

/--
Claim C3, counterexample. The claim states the emitted button/modifier word
is recomputed solely from live key state and never taken from the
OS-supplied non-client word (sentinel tag excepted). For the re-emitted
extended-button message WM_NCXBUTTONDOWN the word depends on the
OS-supplied wParam: with no key pressed, OS words 65536 and 0 yield
different emitted words.
-/
theorem C3_counterexample :
    clientMessageFor WM_NCXBUTTONDOWN = some WM_XBUTTONDOWN ∧
    wParamNew kenvA WM_NCXBUTTONDOWN 65536 ≠ wParamNew kenvA WM_NCXBUTTONDOWN 0 := by
  refine ⟨by decide, by decide⟩

/--
Claim C3, amended. For every re-emitted message kind: the emulated
mouse-leave carries the reserved sentinel tag; every non-leave,
non-extended-button kind carries exactly the live key state, independent of
the OS-supplied word; the extended-button kinds carry the live key state in
the low half but take the high half (the extended-button identifier) from
the OS-supplied non-client word.
-/
theorem C3_word_reconstruction (kenv : KeyEnv) (m w wOther : Nat) :
    (m = WM_NCMOUSELEAVE → wParamNew kenv m w = kMessageTag) ∧
    (m ≠ WM_NCMOUSELEAVE → isNcXButtonMessage m = false →
      wParamNew kenv m w = getKeyState kenv ∧
      wParamNew kenv m w = wParamNew kenv m wOther) ∧
    (isNcXButtonMessage m = true →
      LOWORD (wParamNew kenv m w) = LOWORD (getKeyState kenv) ∧
      HIWORD (wParamNew kenv m w) = GET_XBUTTON_WPARAM w) := by
  refine ⟨?_, ?_, ?_⟩
  · intro h
    simp [wParamNew, h]
  · intro h1 h2
    simp [wParamNew, h1, h2]
  · intro h3
    have hb : WM_NCXBUTTONDOWN ≤ m ∧ m ≤ WM_NCXBUTTONDBLCLK := by
      simpa [isNcXButtonMessage] using h3
    have hne : m ≠ WM_NCMOUSELEAVE := by
      simp only [WM_NCXBUTTONDOWN, WM_NCXBUTTONDBLCLK] at hb
      simp only [WM_NCMOUSELEAVE]
      omega
    simp only [wParamNew, hne, h3, if_false, if_true, ite_false, ite_true]
    constructor
    · simp only [LOWORD, MAKEWPARAM, HIWORD]
      omega
    · simp only [GET_XBUTTON_WPARAM, MAKEWPARAM, HIWORD, LOWORD]
      omega

/-- Claim C3 witness: the emulated leave carries the sentinel and a
    non-client mouse-move carries the live key state whatever the OS word. -/
theorem C3_witness :
    wParamNew kenvA WM_NCMOUSELEAVE 12345 = kMessageTag ∧
    wParamNew kenvA WM_NCMOUSEMOVE 12345 = getKeyState kenvA :=
  ⟨(C3_word_reconstruction kenvA WM_NCMOUSELEAVE 12345 0).1 rfl,
   ((C3_word_reconstruction kenvA WM_NCMOUSEMOVE 12345 0).2.1 (by decide) (by decide)).1⟩

/--
Claim C6: a client-area mouse-move processed while a leave is suppressed
and the current classification is not ChromeButton clears the suppression
flag and re-arms native leave tracking (one TrackMouseEvent request with a
client-area scope), leaving the classification itself unchanged.
-/
theorem C6_mousemove_clears_suppression (env : ProcEnv) (ctx : WinCtx)
    (w l : Nat) (rect : Rect) (resultIn : Int)
    (hv : env.validWindow = true)
    (hb : ctx.mouseLeaveBlocked = true)
    (hp : ctx.lastHitTestResult ≠ WindowPart.ChromeButton) :
    (windowProc env ctx WM_MOUSEMOVE w l rect resultIn).ctx.mouseLeaveBlocked = false ∧
    (windowProc env ctx WM_MOUSEMOVE w l rect resultIn).trackRequests = [false] ∧
    (windowProc env ctx WM_MOUSEMOVE w l rect resultIn).ctx.lastHitTestResult =
      ctx.lastHitTestResult := by
  simp +decide [windowProc, snapLayoutHandler, customWindowHandler, passThrough,
    isTeardownMessage, hv, hb, hp]

/-- Claim C6 witness: suppressed leave with classification Outside, a
    client mouse-move clears the flag and issues the tracking request. -/
theorem C6_witness :
    (windowProc envA ctxB WM_MOUSEMOVE 0 0 rectA 0).ctx.mouseLeaveBlocked = false ∧
    (windowProc envA ctxB WM_MOUSEMOVE 0 0 rectA 0).trackRequests = [false] ∧
    (windowProc envA ctxB WM_MOUSEMOVE 0 0 rectA 0).ctx.lastHitTestResult =
      ctxB.lastHitTestResult :=
  C6_mousemove_clears_suppression envA ctxB 0 0 rectA 0 rfl rfl (by decide)

/--
Claim C8: during frame-size negotiation with the window maximized or
full-screen and the taskbar in auto-hide state, when the detection reports
exactly one monitor edge, the taskbar step shrinks the client rectangle by
the fixed 2-pixel auto-hide thickness on exactly that edge and changes no
other edge.
-/
theorem C8_autohide_single_edge (env : NcEnv) (r0 : Rect)
    (hmf : env.isMaximized = true ∨ env.isFullScreen = true)
    (hah : env.taskbarAutoHide = true)
    (hone : (computeAutoHideEdges env).1.toNat +
      (computeAutoHideEdges env).2.1.toNat +
      (computeAutoHideEdges env).2.2.1.toNat +
      (computeAutoHideEdges env).2.2.2.toNat = 1) :
    ((computeAutoHideEdges env).1 = true →
      ncRectFinal env r0 = { ncRectAfterMaximize env r0 with
        top := (ncRectAfterMaximize env r0).top + kAutoHideTaskBarThickness }) ∧
    ((computeAutoHideEdges env).2.1 = true →
      ncRectFinal env r0 = { ncRectAfterMaximize env r0 with
        bottom := (ncRectAfterMaximize env r0).bottom - kAutoHideTaskBarThickness }) ∧
    ((computeAutoHideEdges env).2.2.1 = true →
      ncRectFinal env r0 = { ncRectAfterMaximize env r0 with
        left := (ncRectAfterMaximize env r0).left + kAutoHideTaskBarThickness }) ∧
    ((computeAutoHideEdges env).2.2.2 = true →
      ncRectFinal env r0 = { ncRectAfterMaximize env r0 with
        right := (ncRectAfterMaximize env r0).right - kAutoHideTaskBarThickness }) := by
  have hcond : (env.isMaximized || env.isFullScreen) = true := by
    rcases hmf with h | h <;> simp [h]
  cases ht : (computeAutoHideEdges env).1 <;>
  cases hbm : (computeAutoHideEdges env).2.1 <;>
  cases hl : (computeAutoHideEdges env).2.2.1 <;>
  cases hr : (computeAutoHideEdges env).2.2.2 <;>
    simp [ht, hbm, hl, hr] at hone ⊢ <;>
    simp [ncRectFinal, applyAutoHideTaskbarAdjustment, hcond, hah, ht, hbm, hl, hr]

/-- Claim C8 witness: maximized window, auto-hide taskbar on the bottom
    edge only: the bottom edge moves up by 2, nothing else changes. -/
theorem C8_witness :
    ncRectFinal ncTbA rectA = { ncRectAfterMaximize ncTbA rectA with
      bottom := (ncRectAfterMaximize ncTbA rectA).bottom - kAutoHideTaskBarThickness } :=
  (C8_autohide_single_edge ncTbA rectA (Or.inl rfl) rfl (by decide)).2.1 rfl

/--
Claim C4: the hooked window procedure forwards handle-without-context
messages to the OS default procedure untouched; with a context it runs the
context handler, records the claimed handled flag and result in the
native-event-filter statics, and unconditionally forwards to the original
pre-hook procedure.
-/
theorem C4_hook_forwarding (env : HookEnv) (st : HookState)
    (hWnd m w l : Nat) (rect : Rect) (h0 : hWnd ≠ 0) :
    (lookupCtx st.registry hWnd = none →
      QWKHookedWndProc env st hWnd m w l rect =
        { state := st, returnValue := env.defWindowProcReturn,
          forwarded := ForwardTarget.defaultProc, handlerInvoked := false }) ∧
    (∀ ctx, lookupCtx st.registry hWnd = some ctx →
      QWKHookedWndProc env st hWnd m w l rect =
        { state :=
            { registry := storeCtx st.registry hWnd
                (windowProc env.procEnv ctx m w l rect st.lastMessageResult).ctx,
              lastMessageHandled :=
                (windowProc env.procEnv ctx m w l rect st.lastMessageResult).handled,
              lastMessageResult :=
                (windowProc env.procEnv ctx m w l rect st.lastMessageResult).result },
          returnValue := env.callWindowProcReturn,
          forwarded := ForwardTarget.originalProc, handlerInvoked := true }) := by
  constructor
  · intro h
    simp [QWKHookedWndProc, h0, h]
  · intro ctx h
    simp [QWKHookedWndProc, h0, h]

/-- Claim C4 witness: handle 6 is unregistered and goes to the default
    procedure; handle 5 is registered and goes to the original procedure
    after the handler ran. -/
theorem C4_witness :
    (QWKHookedWndProc envH stH 6 WM_MOUSEMOVE 0 0 rectA).forwarded =
      ForwardTarget.defaultProc ∧
    (QWKHookedWndProc envH stH 5 WM_MOUSEMOVE 0 0 rectA).forwarded =
      ForwardTarget.originalProc := by
  have hA := (C4_hook_forwarding envH stH 6 WM_MOUSEMOVE 0 0 rectA (by decide)).1
    (by decide)
  have hB := (C4_hook_forwarding envH stH 5 WM_MOUSEMOVE 0 0 rectA (by decide)).2
    ctxA (by decide)
  rw [hA, hB]
  exact ⟨rfl, rfl⟩

/--
Claim C7, counterexample. The claim states that in the two-message sequence
non-client mouse-move (classification ChromeButton) followed by non-client
mouse-leave, exactly one synthesized client-area mouse-leave is produced.
Starting with no suppressed leave pending, the sequence produces zero
synthesized leaves: the move re-emits only a client mouse-move, and the
leave branch synthesizes nothing because mouseLeaveBlocked is false.
-/
theorem C7_counterexample :
    countSynthesizedLeaves (processMessages envA
      { lastHitTestResult := WindowPart.ChromeButton, mouseLeaveBlocked := false }
      [(WM_NCMOUSEMOVE, 0, 0), (WM_NCMOUSELEAVE, 0, 0)] rectA).posted = 0 := by
  decide

/--
Claim C7, amended. In the sequence non-client mouse-move with
classification ChromeButton followed by non-client mouse-leave, when a
suppressed leave is pending, exactly one synthesized client-area mouse-leave
is produced, and it is produced while the second message is processed (the
move produces none). The lastHitTestResult resets to Outside during the
processing of the move message itself, and the leave message leaves both
lastHitTestResult and the suppression flag unchanged.
-/
theorem C7_scenario (env : ProcEnv) (w1 l1 w2 l2 : Nat) (rect : Rect)
    (hv : env.validWindow = true) :
    countSynthesizedLeaves (windowProc env
      { lastHitTestResult := WindowPart.ChromeButton, mouseLeaveBlocked := true }
      WM_NCMOUSEMOVE w1 l1 rect 0).posted = 0 ∧
    (windowProc env
      { lastHitTestResult := WindowPart.ChromeButton, mouseLeaveBlocked := true }
      WM_NCMOUSEMOVE w1 l1 rect 0).ctx =
      { lastHitTestResult := WindowPart.Outside, mouseLeaveBlocked := true } ∧
    countSynthesizedLeaves (windowProc env
      { lastHitTestResult := WindowPart.Outside, mouseLeaveBlocked := true }
      WM_NCMOUSELEAVE w2 l2 rect 0).posted = 1 ∧
    (windowProc env
      { lastHitTestResult := WindowPart.Outside, mouseLeaveBlocked := true }
      WM_NCMOUSELEAVE w2 l2 rect 0).ctx =
      { lastHitTestResult := WindowPart.Outside, mouseLeaveBlocked := true } := by
  refine ⟨?_, ?_, ?_, ?_⟩ <;>
    simp +decide [windowProc, snapLayoutHandler, customWindowHandler,
      emulateClientAreaMessage, clientMessageFor, optPosted, countSynthesizedLeaves,
      isTeardownMessage, isSnapNcInputMessage, passThrough, hv]

/-- Claim C7 witness: the amended scenario on the baseline environment. -/
theorem C7_witness :
    countSynthesizedLeaves (windowProc envA
      { lastHitTestResult := WindowPart.ChromeButton, mouseLeaveBlocked := true }
      WM_NCMOUSEMOVE 0 0 rectA 0).posted = 0 ∧
    countSynthesizedLeaves (windowProc envA
      { lastHitTestResult := WindowPart.Outside, mouseLeaveBlocked := true }
      WM_NCMOUSELEAVE 0 0 rectA 0).posted = 1 := by
  have h := C7_scenario envA 0 0 0 0 rectA rfl
  exact ⟨h.1, h.2.2.1⟩

/-! Helper lemmas for the registry idempotence claim. -/

lemma filter_ne_idem (l : List (Nat × Nat)) (k : Nat) :
    ((l.filter fun p => p.1 ≠ k).filter fun p => p.1 ≠ k) =
      (l.filter fun p => p.1 ≠ k) := by
  induction l with
  | nil => simp
  | cons a t ih =>
      by_cases h : a.1 = k <;> simp [h, ih]

lemma hashInsert_idem (l : List (Nat × Nat)) (k v : Nat) :
    hashInsert (hashInsert l k v) k v = hashInsert l k v := by
  simp [hashInsert, filter_ne_idem]

lemma hashRemove_idem (l : List (Nat × Nat)) (k : Nat) :
    hashRemove (hashRemove l k) k = hashRemove l k := by
  simpa [hashRemove] using filter_ne_idem l k

attribute [ext] HookGlobals

lemma teardown_wndProcHash (g : HookGlobals) (w : Nat) (h : w ≠ 0) :
    (teardown g w).wndProcHash = hashRemove g.wndProcHash w := by
  simp only [teardown, if_pos h]
  split <;> simp [filterUninstall]

lemma teardown_qtWindowProc (g : HookGlobals) (w : Nat) :
    (teardown g w).qtWindowProc = g.qtWindowProc := by
  simp only [teardown]
  split
  · split <;> simp [filterUninstall]
  · rfl

lemma teardown_wndProcSlot (g : HookGlobals) (w : Nat) :
    (teardown g w).wndProcSlot = g.wndProcSlot := by
  simp only [teardown]
  split
  · split <;> simp [filterUninstall]
  · rfl

lemma teardown_filterInstalled (g : HookGlobals) (w : Nat) (h : w ≠ 0) :
    (teardown g w).filterInstalled =
      if (hashRemove g.wndProcHash w).isEmpty then false else g.filterInstalled := by
  simp only [teardown, if_pos h]
  split <;> simp_all [filterUninstall]

/--
Claim C9: attaching the hook twice in a row for the same window produces
the same global state as attaching it once (no duplicate registry entry,
the captured original window procedure is not overwritten, the global
filter is not installed a second time), and running the detach body twice
in a row produces the same state as running it once (no double uninstall
of the global filter).
-/
theorem C9_attach_detach_idempotent (hookedProc : Nat) (g : HookGlobals)
    (hWnd ctxId : Nat) :
    setup hookedProc (setup hookedProc g hWnd ctxId) hWnd ctxId =
      setup hookedProc g hWnd ctxId ∧
    teardown (teardown g hWnd) hWnd = teardown g hWnd := by
  constructor
  · rcases g with ⟨hash, qtp, fi, slot⟩
    cases qtp <;> cases fi <;>
      simp [setup, filterInstall, hashInsert_idem]
  · by_cases h0 : hWnd = 0
    · simp [teardown, h0]
    · ext : 1
      · rw [teardown_wndProcHash _ _ h0, teardown_wndProcHash _ _ h0, hashRemove_idem]
      · rw [teardown_qtWindowProc, teardown_qtWindowProc]
      · rw [teardown_filterInstalled _ _ h0, teardown_filterInstalled _ _ h0,
          teardown_wndProcHash _ _ h0, hashRemove_idem]
        split <;> rfl
      · rw [teardown_wndProcSlot, teardown_wndProcSlot]

end QWK
